import Mathlib

/-!
Shallow embedding of the wasmCloud blobstore-fs capability provider
(src/blobstore-fs/src/main.rs).

The filesystem visible under one resolved tenant root is modelled as an
association list from (containerId, objectId) to file contents, a byte
being a natural number.  The upload-session table (field upload_chunks of
FsProvider, a HashMap from stream id to the next expected offset) is an
association list with insert-at-front shadowing semantics.  Filesystem
primitives that the claims treat as reliable (File::create, a full write)
are modelled as succeeding; the outcomes of genuinely external probes
(read_dir, File::open, remove_dir_all) are passed in as oracle arguments
for the operations that merely forward them.  Rust u64 arithmetic is
modelled with Nat; no claim depends on overflow behaviour.
-/

namespace BlobstoreFs

/-- Lookup in an association list, returning the most recently inserted
binding for the key (HashMap::get). -/
def lookupA {α β : Type} [DecidableEq α] : List (α × β) → α → Option β
  | [], _ => none
  | (k, v) :: rest, a => if k = a then some v else lookupA rest a

/-- Remove every binding for the key (HashMap::remove / file deletion). -/
def eraseA {α β : Type} [DecidableEq α] : List (α × β) → α → List (α × β)
  | [], _ => []
  | (k, v) :: rest, a => if k = a then eraseA rest a else (k, v) :: eraseA rest a

/-- Chunk, from wasmcloud_interface_blobstore: a contiguous byte range of
an object as transmitted in one call. -/
structure Chunk where
  container_id : String
  object_id : String
  bytes : List Nat
  offset : Nat
  is_last : Bool
  deriving Repr, DecidableEq

/-- Errors surfaced by the provider.  RpcError::InvalidParameter is what
the spec calls InvalidRequest; other covers io::Error converted by the
question-mark operator. -/
inductive RpcError where
  | invalidParameter : String → RpcError
  | other : String → RpcError
  deriving Repr, DecidableEq

/-- State of the provider relevant to the storage claims: the files on
disk under the resolved tenant root, keyed by (containerId, objectId),
and the upload_chunks session table keyed by stream id. -/
structure FsState where
  files : List ((String × String) × List Nat)
  uploads : List (String × Nat)
  deriving Repr, DecidableEq

/-- Outcome of a state-mutating provider call.  err and panic carry the
state as it stands when the call aborts (the Rust maps are shared, so
changes made before the abort persist); panic models a Rust panic such
as Option::unwrap on None. -/
inductive StoreResult where
  | ok : FsState → StoreResult
  | err : RpcError → FsState → StoreResult
  | panic : FsState → StoreResult
  deriving Repr, DecidableEq

/-- FsProvider::store_chunk (main.rs lines 113-186).  Step 1: an offset-0
chunk truncate-creates the target file, registers the session when a
stream id is supplied, and is rejected when no stream id is supplied and
the chunk is not last.  Step 2: with a stream id, the tracked expected
offset is fetched with unwrap (a panic when absent) and compared with the
chunk offset; on match the next expected offset is stored.  Finally the
file is opened with create(false).append(true), which fails when the file
does not exist, and the payload is appended. -/
def store_chunk (st : FsState) (chunk : Chunk) (stream_id : Option String) : StoreResult :=
  let key := (chunk.container_id, chunk.object_id)
  let s1 : StoreResult :=
    if chunk.offset = 0 then
      let stf : FsState := { st with files := (key, ([] : List Nat)) :: st.files }
      match stream_id with
      | some s_id => .ok { stf with uploads := (s_id, 0) :: stf.uploads }
      | none =>
        if !chunk.is_last then
          .err (.invalidParameter "Chunked storage is missing stream id") stf
        else
          .ok stf
    else
      .ok st
  match s1 with
  | .ok st1 =>
    let s2 : StoreResult :=
      match stream_id with
      | some s_id =>
        match lookupA st1.uploads s_id with
        | none => .panic st1
        | some expected =>
          if expected ≠ chunk.offset then
            .err (.invalidParameter ("Chunk offset " ++ toString chunk.offset ++
              " not the same as the expected offset: " ++ toString expected)) st1
          else
            let next : Nat := if chunk.is_last then 0 else chunk.offset + chunk.bytes.length
            .ok { st1 with uploads := (s_id, next) :: st1.uploads }
      | none => .ok st1
    match s2 with
    | .ok st2 =>
      match lookupA st2.files key with
      | none => .err (.other "could not open file for append") st2
      | some content =>
        .ok { st2 with files := (key, content ++ chunk.bytes) :: st2.files }
    | r => r
  | r => r

/-- PutObjectRequest: only the chunk field is consulted by put_object. -/
structure PutObjectRequest where
  chunk : Chunk
  deriving Repr, DecidableEq

/-- Blobstore::put_object (main.rs lines 528-560): reject an empty
payload, synthesize a stream id from actor, container and object when the
chunk is not last, and delegate to store_chunk. -/
def put_object (st : FsState) (actor_id : String) (arg : PutObjectRequest) : StoreResult :=
  if arg.chunk.bytes = [] then
    .err (.invalidParameter "cannot put zero-length objects") st
  else
    let stream_id : Option String :=
      if arg.chunk.is_last then none
      else some (actor_id ++ "+" ++ arg.chunk.container_id ++ "+" ++ arg.chunk.object_id)
    store_chunk st arg.chunk stream_id

structure PutChunkRequest where
  chunk : Chunk
  stream_id : Option String
  cancel_and_remove : Bool
  deriving Repr, DecidableEq

/-- Blobstore::put_chunk (main.rs lines 565-586): with cancel_and_remove
set it deletes the target file (remove_file, which errors when the file
is absent, mapped to InvalidParameter) and touches nothing else;
otherwise it delegates to store_chunk unconditionally. -/
def put_chunk (st : FsState) (arg : PutChunkRequest) : StoreResult :=
  if arg.cancel_and_remove then
    let key := (arg.chunk.container_id, arg.chunk.object_id)
    match lookupA st.files key with
    | some _ => .ok { st with files := eraseA st.files key }
    | none => .err (.invalidParameter "Could not cancel and remove file") st
  else
    store_chunk st arg.chunk arg.stream_id

structure GetObjectRequest where
  container_id : String
  object_id : String
  range_start : Option Nat
  range_end : Option Nat
  deriving Repr, DecidableEq

/-- Outcome of get_object, reduced to the produced chunk; panic models an
out-of-bounds slice index. -/
inductive GetResult where
  | ok : Chunk → GetResult
  | err : RpcError → GetResult
  | panic : GetResult
  deriving Repr, DecidableEq

/-- Start offset computed by get_object: range_start or 0 (main.rs lines
605-608). -/
def range_start_of (arg : GetObjectRequest) : Nat :=
  match arg.range_start with
  | some o => o
  | none => 0

/-- Exclusive end offset computed by get_object: min (range_end + 1) len,
or len when range_end is absent (main.rs lines 610-613). -/
def range_end_of (arg : GetObjectRequest) (len : Nat) : Nat :=
  match arg.range_end with
  | some o => min (o + 1) len
  | none => len

/-- Blobstore::get_object (main.rs lines 592-642): read the whole file,
compute the start and exclusive end offsets, and slice.  The Rust slice
expression file[start..end] panics when start exceeds end (end never
exceeds the file length by construction); otherwise a single chunk is
produced with offset = start and is_last iff end reaches the file
length. -/
def get_object (st : FsState) (arg : GetObjectRequest) : GetResult :=
  match lookupA st.files (arg.container_id, arg.object_id) with
  | none => .err (.other "could not read file")
  | some file =>
    let start_offset := range_start_of arg
    let end_offset := range_end_of arg file.length
    if end_offset < start_offset then
      .panic
    else
      .ok ⟨arg.container_id, arg.object_id, (file.take end_offset).drop start_offset,
        start_offset, decide (file.length ≤ end_offset)⟩

/-- FsProvider::get_actor_id (main.rs lines 70-80). -/
def get_actor_id (actor : Option String) : Except RpcError String :=
  match actor with
  | some a => .ok a
  | none => .error (.invalidParameter "No actor id found")

/-- FsProvider::get_root (main.rs lines 97-110): configured root joined
with the actor id. -/
def get_root (config : List (String × String)) (actor : Option String) :
    Except RpcError String :=
  match get_actor_id actor with
  | .error e => .error e
  | .ok a =>
    match lookupA config a with
    | none => .error (.invalidParameter "No root configuration found")
    | some root => .ok (root ++ "/" ++ a)

/-- Blobstore::container_exists (main.rs lines 274-284): resolve the
root, then report whether read_dir succeeds; the read_dir outcome is the
oracle argument and any of its errors become false. -/
def container_exists (config : List (String × String)) (actor : Option String)
    (read_dir_ok : Bool) : Except RpcError Bool :=
  match get_root config actor with
  | .error e => .error e
  | .ok _ => .ok read_dir_ok

/-- Blobstore::object_exists (main.rs lines 379-391): resolve the root,
then report whether File::open succeeds; the open outcome is the oracle
argument and any of its errors become false. -/
def object_exists (config : List (String × String)) (actor : Option String)
    (open_ok : Bool) : Except RpcError Bool :=
  match get_root config actor with
  | .error e => .error e
  | .ok _ => .ok open_ok

/-- One entry of the MultiResult list. -/
structure ItemResult where
  key : String
  success : Bool
  error : Option String
  deriving Repr, DecidableEq

/-- Blobstore::remove_containers (main.rs lines 352-375): for each listed
id attempt remove_dir_all; when it errors and read_dir still succeeds on
the path, push an ItemResult carrying the error (with success left true,
a quirk of the source).  The two filesystem outcomes per id are the
oracle arguments remove_err (some error message when remove_dir_all
fails) and still_exists (whether read_dir succeeds afterwards). -/
def remove_containers (remove_err : String → Option String)
    (still_exists : String → Bool) : List String → List ItemResult
  | [] => []
  | cid :: rest =>
    (match remove_err cid with
     | some e => if still_exists cid then [⟨cid, true, some e⟩] else []
     | none => []) ++ remove_containers remove_err still_exists rest

/-- Chunk sequence of an N-part upload of the given payloads to one
object: the first chunk is at offset base, each later chunk at the
running sum of payload lengths, and exactly the final chunk has is_last
set. -/
def mkChunks (cid oid : String) : Nat → List (List Nat) → List Chunk
  | _, [] => []
  | base, [p] => [⟨cid, oid, p, base, true⟩]
  | base, p :: q :: rest =>
    ⟨cid, oid, p, base, false⟩ :: mkChunks cid oid (base + p.length) (q :: rest)

/-- Run store_chunk over a list of chunks, all tagged with the same
stream id, stopping at the first non-ok outcome. -/
def runChunks (s : Option String) : FsState → List Chunk → Option FsState
  | st, [] => some st
  | st, c :: rest =>
    match store_chunk st c s with
    | .ok st' => runChunks s st' rest
    | _ => none

theorem lookupA_cons_self {α β : Type} [DecidableEq α] (a : α) (b : β) (l : List (α × β)) :
    lookupA ((a, b) :: l) a = some b := by
  simp [lookupA]

theorem lookupA_eraseA_self {α β : Type} [DecidableEq α] (l : List (α × β)) (a : α) :
    lookupA (eraseA l a) a = none := by
  induction l with
  | nil => rfl
  | cons kv rest ih =>
    obtain ⟨k, v⟩ := kv
    by_cases h : k = a <;> simp [eraseA, lookupA, h, ih]

theorem store_chunk_first (st : FsState) (cid oid s : String) (p : List Nat) (last : Bool) :
    store_chunk st ⟨cid, oid, p, 0, last⟩ (some s) =
      .ok ⟨((cid, oid), p) :: ((cid, oid), []) :: st.files,
        (s, if last then 0 else p.length) :: (s, 0) :: st.uploads⟩ := by
  simp [store_chunk, lookupA]

theorem store_chunk_cont (st : FsState) (cid oid s : String) (p : List Nat) (off : Nat)
    (last : Bool) (cur : List Nat) (hoff : off ≠ 0)
    (hf : lookupA st.files (cid, oid) = some cur)
    (hu : lookupA st.uploads s = some off) :
    store_chunk st ⟨cid, oid, p, off, last⟩ (some s) =
      .ok ⟨((cid, oid), cur ++ p) :: st.files,
        (s, if last then 0 else off + p.length) :: st.uploads⟩ := by
  simp [store_chunk, hoff, hf, hu]

theorem runChunks_tail (cid oid s : String) (ps : List (List Nat)) :
    ∀ (st : FsState) (cur : List Nat),
      (∀ p ∈ ps, p ≠ []) → cur ≠ [] →
      lookupA st.files (cid, oid) = some cur →
      lookupA st.uploads s = some cur.length →
      ps ≠ [] →
      ∃ st', runChunks (some s) st (mkChunks cid oid cur.length ps) = some st' ∧
        lookupA st'.files (cid, oid) = some (cur ++ ps.flatten) := by
  induction ps with
  | nil =>
    intro st cur _ _ _ _ hne
    exact absurd rfl hne
  | cons p rest ih =>
    intro st cur hps hcur hf hu _
    have hoff : cur.length ≠ 0 := fun h => hcur (List.length_eq_zero.mp h)
    cases rest with
    | nil =>
      have hsc := store_chunk_cont st cid oid s p cur.length true cur hoff hf hu
      refine ⟨⟨((cid, oid), cur ++ p) :: st.files, (s, 0) :: st.uploads⟩, ?_, ?_⟩
      · simp [mkChunks, runChunks, hsc]
      · simp [lookupA]
    | cons q rest' =>
      have hsc := store_chunk_cont st cid oid s p cur.length false cur hoff hf hu
      obtain ⟨st', h1, h2⟩ :=
        ih ⟨((cid, oid), cur ++ p) :: st.files, (s, cur.length + p.length) :: st.uploads⟩
          (cur ++ p)
          (fun r hr => hps r (List.mem_cons_of_mem _ hr))
          (by simp [hcur])
          (by simp [lookupA])
          (by simp [lookupA, List.length_append])
          (by simp)
      rw [List.length_append] at h1
      refine ⟨st', ?_, ?_⟩
      · simp only [mkChunks, runChunks, hsc]
        simpa using h1
      · simpa [List.append_assoc] using h2

/-- C1: for every valid N-chunk upload sequence (all payloads non-empty,
the first chunk at offset 0 carrying the stream id, each subsequent chunk
at the running sum of the previous payload lengths, and exactly the final
chunk with is_last), every store_chunk call succeeds and the stored file
content after the sequence is the concatenation of the payloads in
order. -/
theorem chunked_upload_stores_concatenation (st : FsState) (cid oid s : String)
    (ps : List (List Nat)) (hne : ps ≠ []) (hps : ∀ p ∈ ps, p ≠ []) :
    ∃ st', runChunks (some s) st (mkChunks cid oid 0 ps) = some st' ∧
      lookupA st'.files (cid, oid) = some ps.flatten := by
  cases ps with
  | nil => exact absurd rfl hne
  | cons p rest =>
    have hp : p ≠ [] := hps p (by simp)
    cases rest with
    | nil =>
      have h := store_chunk_first st cid oid s p true
      refine ⟨⟨((cid, oid), p) :: ((cid, oid), []) :: st.files,
        (s, 0) :: (s, 0) :: st.uploads⟩, ?_, ?_⟩
      · simp [mkChunks, runChunks, h]
      · simp [lookupA]
    | cons q rest' =>
      have h := store_chunk_first st cid oid s p false
      obtain ⟨st', h1, h2⟩ := runChunks_tail cid oid s (q :: rest')
          ⟨((cid, oid), p) :: ((cid, oid), []) :: st.files,
            (s, p.length) :: (s, 0) :: st.uploads⟩
          p
          (fun r hr => hps r (List.mem_cons_of_mem _ hr))
          hp
          (by simp [lookupA])
          (by simp [lookupA])
          (by simp)
      refine ⟨st', ?_, ?_⟩
      · simp only [mkChunks, runChunks, h]
        simpa using h1
      · simpa using h2

/-- C1 witness: a concrete three-chunk upload of payloads [1], [2, 3],
[4] ends with the file holding [1, 2, 3, 4]. -/
theorem chunked_upload_stores_concatenation_witness :
    ([[1], [2, 3], [4]] : List (List Nat)) ≠ [] ∧
    (∀ p ∈ ([[1], [2, 3], [4]] : List (List Nat)), p ≠ []) ∧
    ∃ st', runChunks (some "s") ⟨[], []⟩ (mkChunks "c" "o" 0 [[1], [2, 3], [4]]) = some st' ∧
      lookupA st'.files ("c", "o") = some ([[1], [2, 3], [4]] : List (List Nat)).flatten :=
  ⟨by decide, by decide,
    chunked_upload_stores_concatenation ⟨[], []⟩ "c" "o" "s" [[1], [2, 3], [4]]
      (by decide) (by decide)⟩

/-- C2 counterexample: with the session for stream s tracking expected
offset 5, a chunk at offset 0 (which differs from the tracked expected
offset) does not fail: the offset-0 rule truncates the file and resets
the session to 0 before the comparison, so the call succeeds, the file
content changes from [9, 9] to [1], and the session entry changes. -/
theorem offset_mismatch_not_always_rejected :
    lookupA (FsState.uploads ⟨[(("c", "o"), [9, 9])], [("s", 5)]⟩) "s" = some 5 ∧
    Chunk.offset ⟨"c", "o", [1], 0, false⟩ ≠ 5 ∧
    store_chunk ⟨[(("c", "o"), [9, 9])], [("s", 5)]⟩ ⟨"c", "o", [1], 0, false⟩ (some "s") =
      .ok ⟨[(("c", "o"), [1]), (("c", "o"), []), (("c", "o"), [9, 9])],
        [("s", 1), ("s", 0), ("s", 5)]⟩ :=
  ⟨rfl, by decide, rfl⟩

/-- C2 amended: for every chunk with nonzero offset submitted for a
stream with an active session whose tracked expected offset differs from
the chunk offset, store_chunk fails with InvalidParameter (the spec's
InvalidRequest) reporting both values and returns with the state exactly
as it was: file contents and session table unchanged. -/
theorem offset_mismatch_rejected_nonzero (st : FsState) (ch : Chunk) (s : String) (e : Nat)
    (ho : ch.offset ≠ 0) (hu : lookupA st.uploads s = some e) (hne : e ≠ ch.offset) :
    store_chunk st ch (some s) =
      .err (.invalidParameter ("Chunk offset " ++ toString ch.offset ++
        " not the same as the expected offset: " ++ toString e)) st := by
  simp [store_chunk, ho, hu, hne]

/-- C2 witness: a concrete mismatching chunk at offset 3 against a
session expecting 5 is rejected with the state unchanged. -/
theorem offset_mismatch_rejected_nonzero_witness :
    Chunk.offset ⟨"c", "o", [1], 3, false⟩ ≠ 0 ∧
    lookupA (FsState.uploads ⟨[(("c", "o"), [9, 9])], [("s", 5)]⟩) "s" = some 5 ∧
    (5 : Nat) ≠ Chunk.offset ⟨"c", "o", [1], 3, false⟩ ∧
    store_chunk ⟨[(("c", "o"), [9, 9])], [("s", 5)]⟩ ⟨"c", "o", [1], 3, false⟩ (some "s") =
      .err (.invalidParameter ("Chunk offset " ++ toString (3 : Nat) ++
        " not the same as the expected offset: " ++ toString (5 : Nat)))
        ⟨[(("c", "o"), [9, 9])], [("s", 5)]⟩ :=
  ⟨by decide, rfl, by decide,
    offset_mismatch_rejected_nonzero ⟨[(("c", "o"), [9, 9])], [("s", 5)]⟩
      ⟨"c", "o", [1], 3, false⟩ "s" 5 (by decide) rfl (by decide)⟩

/-- C3: contrary to the claim, a chunk carrying a stream id with no
active session and nonzero offset does not fail with InvalidParameter:
the source calls Option::unwrap on the absent session entry (main.rs line
146) and the provider panics.  Shown here on a concrete input with an
empty session table. -/
theorem missing_session_panics (st : FsState) (ch : Chunk) (s : String)
    (ho : ch.offset ≠ 0) (hu : lookupA st.uploads s = none) :
    store_chunk st ch (some s) = .panic st := by
  simp [store_chunk, ho, hu]

/-- C3 witness: the concrete failing input, a chunk at offset 5 for
stream s while the session table is empty, panics. -/
theorem missing_session_panics_witness :
    Chunk.offset ⟨"c", "o", [2], 5, false⟩ ≠ 0 ∧
    lookupA (FsState.uploads ⟨[(("c", "o"), [1])], []⟩) "s" = none ∧
    store_chunk ⟨[(("c", "o"), [1])], []⟩ ⟨"c", "o", [2], 5, false⟩ (some "s") =
      .panic ⟨[(("c", "o"), [1])], []⟩ :=
  ⟨by decide, rfl,
    missing_session_panics ⟨[(("c", "o"), [1])], []⟩ ⟨"c", "o", [2], 5, false⟩ "s"
      (by decide) rfl⟩

/-- C4 counterexample: a put_chunk call whose chunk has an empty byte
payload does not fail: with the target file present, offset 1 and no
stream id, the call appends nothing and returns ok, refuting the claim
that every upload call with an empty payload fails with
InvalidParameter. -/
theorem put_chunk_accepts_empty_payload :
    Chunk.bytes ⟨"c", "o", [], 1, true⟩ = [] ∧
    put_chunk ⟨[(("c", "o"), [7])], []⟩ ⟨⟨"c", "o", [], 1, true⟩, none, false⟩ =
      .ok ⟨[(("c", "o"), [7]), (("c", "o"), [7])], []⟩ :=
  ⟨rfl, rfl⟩

/-- C4 amended: every put_object call whose chunk has an empty byte
payload fails with InvalidParameter before any state change (the error
carries the state exactly as passed in); put_chunk performs no such
check, as a concrete empty-payload put_chunk call that succeeds shows. -/
theorem put_object_rejects_empty_payload :
    (∀ (st : FsState) (actor_id : String) (arg : PutObjectRequest),
      arg.chunk.bytes = [] →
      put_object st actor_id arg =
        .err (.invalidParameter "cannot put zero-length objects") st) ∧
    put_chunk ⟨[(("c", "o"), [7, 8])], []⟩ ⟨⟨"c", "o", [], 1, true⟩, none, false⟩ =
      .ok ⟨[(("c", "o"), [7, 8]), (("c", "o"), [7, 8])], []⟩ := by
  constructor
  · intro st actor_id arg he
    simp [put_object, he]
  · rfl

/-- C4 witness: put_object with a concrete empty chunk is rejected with
the state unchanged. -/
theorem put_object_rejects_empty_payload_witness :
    Chunk.bytes ⟨"c", "o", [], 0, true⟩ = [] ∧
    put_object ⟨[], []⟩ "actor" ⟨⟨"c", "o", [], 0, true⟩⟩ =
      .err (.invalidParameter "cannot put zero-length objects") ⟨[], []⟩ :=
  ⟨rfl, put_object_rejects_empty_payload.1 ⟨[], []⟩ "actor" ⟨⟨"c", "o", [], 0, true⟩⟩ rfl⟩

theorem range_end_of_le (arg : GetObjectRequest) (len : Nat) :
    range_end_of arg len ≤ len := by
  cases h : arg.range_end <;> simp [range_end_of, h]

theorem slice_get? (l : List Nat) (s e i : Nat) (hi : i < e - s) :
    ((l.take e).drop s).get? i = l.get? (s + i) := by
  rw [List.get?_eq_getElem?, List.get?_eq_getElem?, List.getElem?_drop, List.getElem?_take,
    if_pos (by omega)]

theorem slice_length (l : List Nat) (s e : Nat) (he : e ≤ l.length) :
    ((l.take e).drop s).length = e - s := by
  simp [List.length_drop, List.length_take, Nat.min_eq_left he]

/-- C5: for every stored object and every range request whose computed
start offset does not exceed the computed exclusive end offset, get_object
returns a single chunk whose offset is the start offset (range_start or
0), whose bytes are exactly the file content from start to end
(end = min (range_end + 1) length, or length when range_end is absent),
and whose is_last flag holds exactly when the end reaches the file
length; in particular range_start 2 and range_end 4 on a 10-byte object
yield the 3 bytes at indices 2, 3, 4 with is_last false, and omitting
range_end yields the tail of the file with is_last true. -/
theorem get_object_range_read :
    (∀ (st : FsState) (arg : GetObjectRequest) (file : List Nat),
      lookupA st.files (arg.container_id, arg.object_id) = some file →
      range_start_of arg ≤ range_end_of arg file.length →
      ∃ c : Chunk, get_object st arg = .ok c ∧
        c.offset = range_start_of arg ∧
        c.is_last = decide (file.length ≤ range_end_of arg file.length) ∧
        c.bytes.length = range_end_of arg file.length - range_start_of arg ∧
        ∀ i, i < range_end_of arg file.length - range_start_of arg →
          c.bytes.get? i = file.get? (range_start_of arg + i)) ∧
    get_object ⟨[(("c", "o"), [0, 1, 2, 3, 4, 5, 6, 7, 8, 9])], []⟩
        ⟨"c", "o", some 2, some 4⟩ = .ok ⟨"c", "o", [2, 3, 4], 2, false⟩ ∧
    get_object ⟨[(("c", "o"), [0, 1, 2, 3, 4, 5, 6, 7, 8, 9])], []⟩
        ⟨"c", "o", some 2, none⟩ = .ok ⟨"c", "o", [2, 3, 4, 5, 6, 7, 8, 9], 2, true⟩ := by
  refine ⟨?_, by decide, by decide⟩
  intro st arg file hf hr
  refine ⟨⟨arg.container_id, arg.object_id,
    (file.take (range_end_of arg file.length)).drop (range_start_of arg),
    range_start_of arg, decide (file.length ≤ range_end_of arg file.length)⟩, ?_, rfl, rfl, ?_, ?_⟩
  · simp only [get_object, hf]
    rw [if_neg (Nat.not_lt.mpr hr)]
  · exact slice_length file _ _ (range_end_of_le arg file.length)
  · intro i hi
    exact slice_get? file _ _ i hi

/-- C5 witness: the general part applied to the 10-byte object with
range_start 2 and range_end 4. -/
theorem get_object_range_read_witness :
    lookupA (FsState.files ⟨[(("c", "o"), [0, 1, 2, 3, 4, 5, 6, 7, 8, 9])], []⟩)
        ("c", "o") = some [0, 1, 2, 3, 4, 5, 6, 7, 8, 9] ∧
    range_start_of ⟨"c", "o", some 2, some 4⟩ ≤
      range_end_of ⟨"c", "o", some 2, some 4⟩ 10 ∧
    ∃ c : Chunk,
      get_object ⟨[(("c", "o"), [0, 1, 2, 3, 4, 5, 6, 7, 8, 9])], []⟩
        ⟨"c", "o", some 2, some 4⟩ = .ok c ∧
      c.offset = range_start_of ⟨"c", "o", some 2, some 4⟩ ∧
      c.is_last = decide ((10 : Nat) ≤ range_end_of ⟨"c", "o", some 2, some 4⟩ 10) ∧
      c.bytes.length = range_end_of ⟨"c", "o", some 2, some 4⟩ 10 -
        range_start_of ⟨"c", "o", some 2, some 4⟩ ∧
      ∀ i, i < range_end_of ⟨"c", "o", some 2, some 4⟩ 10 -
          range_start_of ⟨"c", "o", some 2, some 4⟩ →
        c.bytes.get? i = ([0, 1, 2, 3, 4, 5, 6, 7, 8, 9] : List Nat).get?
          (range_start_of ⟨"c", "o", some 2, some 4⟩ + i) :=
  ⟨rfl, by decide,
    get_object_range_read.1 ⟨[(("c", "o"), [0, 1, 2, 3, 4, 5, 6, 7, 8, 9])], []⟩
      ⟨"c", "o", some 2, some 4⟩ [0, 1, 2, 3, 4, 5, 6, 7, 8, 9] rfl (by decide)⟩

/-- C10: get_object performs no validation of the requested range: for
every stored object and every request whose computed start offset exceeds
the computed exclusive end offset (for example a range_start beyond the
file length), the slice index is out of bounds and the operation panics
rather than returning an error or an empty result. -/
theorem get_object_out_of_range_panics (st : FsState) (arg : GetObjectRequest)
    (file : List Nat)
    (hf : lookupA st.files (arg.container_id, arg.object_id) = some file)
    (hr : range_end_of arg file.length < range_start_of arg) :
    get_object st arg = .panic := by
  simp only [get_object, hf]
  rw [if_pos hr]

/-- C10 witness: range_start 5 on a 3-byte object panics. -/
theorem get_object_out_of_range_panics_witness :
    lookupA (FsState.files ⟨[(("c", "o"), [1, 2, 3])], []⟩) ("c", "o") = some [1, 2, 3] ∧
    range_end_of ⟨"c", "o", some 5, none⟩ 3 < range_start_of ⟨"c", "o", some 5, none⟩ ∧
    get_object ⟨[(("c", "o"), [1, 2, 3])], []⟩ ⟨"c", "o", some 5, none⟩ = .panic :=
  ⟨rfl, by decide,
    get_object_out_of_range_panics ⟨[(("c", "o"), [1, 2, 3])], []⟩
      ⟨"c", "o", some 5, none⟩ [1, 2, 3] rfl (by decide)⟩

/-- C6: put_chunk invoked with the cancel flag deletes the target file
when it exists (returning ok with the file gone and the upload session
table literally unchanged) and, when the file is absent, fails with the
state entirely unchanged; in no case is any session entry removed or
modified. -/
theorem cancel_removes_file_keeps_sessions (st : FsState) (arg : PutChunkRequest)
    (hc : arg.cancel_and_remove = true) :
    (∀ content,
      lookupA st.files (arg.chunk.container_id, arg.chunk.object_id) = some content →
      put_chunk st arg =
        .ok ⟨eraseA st.files (arg.chunk.container_id, arg.chunk.object_id), st.uploads⟩ ∧
      lookupA (eraseA st.files (arg.chunk.container_id, arg.chunk.object_id))
        (arg.chunk.container_id, arg.chunk.object_id) = none) ∧
    (lookupA st.files (arg.chunk.container_id, arg.chunk.object_id) = none →
      put_chunk st arg = .err (.invalidParameter "Could not cancel and remove file") st) := by
  constructor
  · intro content hf
    exact ⟨by simp [put_chunk, hc, hf], lookupA_eraseA_self _ _⟩
  · intro hf
    simp [put_chunk, hc, hf]

/-- C6 witness: cancelling an upload of a concrete two-byte file removes
the file and leaves the session table, which holds an entry for stream s,
exactly as it was. -/
theorem cancel_removes_file_keeps_sessions_witness :
    PutChunkRequest.cancel_and_remove ⟨⟨"c", "o", [1], 3, false⟩, some "s", true⟩ = true ∧
    lookupA (FsState.files ⟨[(("c", "o"), [7, 8])], [("s", 2)]⟩) ("c", "o") = some [7, 8] ∧
    put_chunk ⟨[(("c", "o"), [7, 8])], [("s", 2)]⟩ ⟨⟨"c", "o", [1], 3, false⟩, some "s", true⟩ =
      .ok ⟨eraseA [(("c", "o"), [7, 8])] ("c", "o"), [("s", 2)]⟩ ∧
    lookupA (eraseA [(("c", "o"), [7, 8])] ("c", "o")) ("c", "o") = none :=
  ⟨rfl, rfl,
    ((cancel_removes_file_keeps_sessions ⟨[(("c", "o"), [7, 8])], [("s", 2)]⟩
      ⟨⟨"c", "o", [1], 3, false⟩, some "s", true⟩ rfl).1 [7, 8] rfl).1,
    ((cancel_removes_file_keeps_sessions ⟨[(("c", "o"), [7, 8])], [("s", 2)]⟩
      ⟨⟨"c", "o", [1], 3, false⟩, some "s", true⟩ rfl).1 [7, 8] rfl).2⟩

theorem remove_containers_eq (remove_err : String → Option String)
    (still_exists : String → Bool) (ids : List String) :
    remove_containers remove_err still_exists ids =
      (ids.filter (fun c => (remove_err c).isSome && still_exists c)).map
        (fun c => ⟨c, true, remove_err c⟩) := by
  induction ids with
  | nil => rfl
  | cons cid rest ih =>
    cases hf : remove_err cid with
    | none => simp [remove_containers, hf, List.filter_cons, ih]
    | some e =>
      cases hg : still_exists cid <;>
        simp [remove_containers, hf, hg, List.filter_cons, ih]

/-- C7: remove_containers attempts deletion for every listed id and
continues past failures; its result list holds an entry exactly for the
ids whose removal attempt errored and that still exist on disk afterwards
(the entry carrying the error and, as the source writes it, success set
to true), and the result is empty exactly when no id both errored and
still exists, which is what full success means to the caller. -/
theorem remove_containers_failures_only (remove_err : String → Option String)
    (still_exists : String → Bool) (ids : List String) :
    (∀ r : ItemResult, r ∈ remove_containers remove_err still_exists ids ↔
      (r.key ∈ ids ∧ remove_err r.key = r.error ∧ r.error ≠ none ∧
        still_exists r.key = true ∧ r.success = true)) ∧
    (remove_containers remove_err still_exists ids = [] ↔
      ∀ cid ∈ ids, (remove_err cid).isSome → still_exists cid = false) := by
  constructor
  · intro r
    rw [remove_containers_eq]
    simp only [List.mem_map, List.mem_filter, Bool.and_eq_true]
    constructor
    · rintro ⟨c, ⟨hc, hcp, hce⟩, rfl⟩
      refine ⟨hc, rfl, ?_, hce, rfl⟩
      simpa using Option.isSome_iff_ne_none.mp hcp
    · rintro ⟨h1, h2, h3, h4, h5⟩
      refine ⟨r.key, ⟨h1, ?_, h4⟩, ?_⟩
      · rw [h2]
        exact Option.isSome_iff_ne_none.mpr h3
      · cases r
        simp_all
  · rw [remove_containers_eq, List.map_eq_nil_iff, List.filter_eq_nil_iff]
    constructor
    · intro h c hc hs
      have hcontra := h c hc
      simp only [Bool.and_eq_true, not_and] at hcontra
      simpa using hcontra hs
    · intro h c hc
      simp only [Bool.and_eq_true, not_and]
      intro hs
      simp [h c hc hs]

/-- C7 witness: with ids a, b, c where removal of a errors but the path
vanishes, removal of b errors with the path persisting, and removal of c
succeeds, exactly the entry for b is reported and the list is
nonempty. -/
theorem remove_containers_failures_only_witness :
    ((⟨"b", true, some "busy"⟩ : ItemResult) ∈
      remove_containers
        (fun c => if c = "c" then none else if c = "a" then some "gone" else some "busy")
        (fun c => c = "b") ["a", "b", "c"]) ∧
    ¬(remove_containers
        (fun c => if c = "c" then none else if c = "a" then some "gone" else some "busy")
        (fun c => c = "b") ["a", "b", "c"] = []) :=
  ⟨((remove_containers_failures_only
      (fun c => if c = "c" then none else if c = "a" then some "gone" else some "busy")
      (fun c => c = "b") ["a", "b", "c"]).1 ⟨"b", true, some "busy"⟩).mpr
      (by refine ⟨by decide, by decide, by decide, by decide, rfl⟩),
    fun h => by
      have hempty := ((remove_containers_failures_only
        (fun c => if c = "c" then none else if c = "a" then some "gone" else some "busy")
        (fun c => c = "b") ["a", "b", "c"]).2).mp h "b" (by decide) (by decide)
      exact absurd hempty (by decide)⟩

/-- C8: for every registered tenant (an actor id present in the config
table), container_exists and object_exists never return an error: each
returns ok with exactly the outcome of the filesystem probe (read_dir for
containers, File::open for objects), so any nonexistent, invalid or
unreadable path, whose probe reports false, yields ok false rather than a
propagated error. -/
theorem exists_checks_never_error (config : List (String × String)) (a root_v : String)
    (hc : lookupA config a = some root_v) (dir_ok file_ok : Bool) :
    container_exists config (some a) dir_ok = .ok dir_ok ∧
    object_exists config (some a) file_ok = .ok file_ok := by
  constructor <;> simp [container_exists, object_exists, get_root, get_actor_id, hc]

/-- C8 witness: a registered tenant with unreadable paths gets ok false
from both checks. -/
theorem exists_checks_never_error_witness :
    lookupA [("actor", "/tmp")] "actor" = some "/tmp" ∧
    container_exists [("actor", "/tmp")] (some "actor") false = .ok false ∧
    object_exists [("actor", "/tmp")] (some "actor") false = .ok false :=
  ⟨rfl, (exists_checks_never_error [("actor", "/tmp")] "actor" "/tmp" rfl false false).1,
    (exists_checks_never_error [("actor", "/tmp")] "actor" "/tmp" rfl false false).2⟩

/-- C9: a put_chunk call with cancel_and_remove false, no stream id and a
nonzero chunk offset performs no session lookup and no offset validation:
whenever the target file exists (so the append-mode open succeeds), the
call returns ok with the payload appended to the file and the session
table passed through untouched, whatever the claimed offset and whatever
the session table holds. -/
theorem put_chunk_no_stream_appends_blindly (st : FsState) (arg : PutChunkRequest)
    (content : List Nat)
    (hc : arg.cancel_and_remove = false) (hs : arg.stream_id = none)
    (ho : arg.chunk.offset ≠ 0)
    (hf : lookupA st.files (arg.chunk.container_id, arg.chunk.object_id) = some content) :
    put_chunk st arg =
      .ok ⟨((arg.chunk.container_id, arg.chunk.object_id), content ++ arg.chunk.bytes) ::
        st.files, st.uploads⟩ := by
  simp [put_chunk, hc, hs, store_chunk, ho, hf]

/-- C9 witness: with an empty session table and a wildly wrong claimed
offset 99, the bytes are appended and the call succeeds. -/
theorem put_chunk_no_stream_appends_blindly_witness :
    PutChunkRequest.cancel_and_remove ⟨⟨"c", "o", [4, 5], 99, false⟩, none, false⟩ = false ∧
    PutChunkRequest.stream_id ⟨⟨"c", "o", [4, 5], 99, false⟩, none, false⟩ = none ∧
    Chunk.offset ⟨"c", "o", [4, 5], 99, false⟩ ≠ 0 ∧
    lookupA (FsState.files ⟨[(("c", "o"), [1])], []⟩) ("c", "o") = some [1] ∧
    put_chunk ⟨[(("c", "o"), [1])], []⟩ ⟨⟨"c", "o", [4, 5], 99, false⟩, none, false⟩ =
      .ok ⟨[(("c", "o"), [1, 4, 5]), (("c", "o"), [1])], []⟩ :=
  ⟨rfl, rfl, by decide, rfl,
    put_chunk_no_stream_appends_blindly ⟨[(("c", "o"), [1])], []⟩
      ⟨⟨"c", "o", [4, 5], 99, false⟩, none, false⟩ [1] rfl rfl (by decide) rfl⟩

end BlobstoreFs
